import Mathlib

/-!
Verification of the run-activation pipeline (`StartRunService` and its helper
functions) and of the Shopify integration's auth-source classification.

The definitions below are a shallow embedding of the TypeScript sources:
pure functions become Lean functions, the Prisma-backed database becomes an
explicit `DB` state record, and the interactive transaction of `#startRun`
becomes a function parameterised by the transaction's outcome.  32-bit
machine arithmetic in the hash is modelled on `Nat` with explicit
reduction modulo `2 ^ 32`.
-/

namespace StartRun

/-! ## SHA-256 and `jobIdToLockId`

`jobIdToLockId` in the source is
`parseInt(createHash("sha256").update(jobId).digest("hex").slice(0, 8), 16)`.
We embed SHA-256 itself (FIPS 180-4) on `Nat`, with every 32-bit operation
wrapped modulo `2 ^ 32`. -/

/-- Reduce modulo `2 ^ 32`, the wrap-around of 32-bit words. -/
def w32 (n : Nat) : Nat := n % 4294967296

/-- Rotate a 32-bit word right by `n` positions. -/
def rotr32 (x n : Nat) : Nat := w32 ((x >>> n) ||| (x <<< (32 - n)))

/-- Bitwise complement inside 32 bits. -/
def not32 (x : Nat) : Nat := x ^^^ 4294967295

def sha256SmallS0 (x : Nat) : Nat := rotr32 x 7 ^^^ rotr32 x 18 ^^^ (x >>> 3)

def sha256SmallS1 (x : Nat) : Nat := rotr32 x 17 ^^^ rotr32 x 19 ^^^ (x >>> 10)

def sha256BigS0 (x : Nat) : Nat := rotr32 x 2 ^^^ rotr32 x 13 ^^^ rotr32 x 22

def sha256BigS1 (x : Nat) : Nat := rotr32 x 6 ^^^ rotr32 x 11 ^^^ rotr32 x 25

def sha256Ch (e f g : Nat) : Nat := (e &&& f) ^^^ (not32 e &&& g)

def sha256Maj (a b c : Nat) : Nat := (a &&& b) ^^^ (a &&& c) ^^^ (b &&& c)

/-- The 64 SHA-256 round constants, written in decimal. -/
def sha256K : Array Nat := #[
  1116352408, 1899447441, 3049323471, 3921009573, 961987163,
  1508970993, 2453635748, 2870763221, 3624381080, 310598401,
  607225278, 1426881987, 1925078388, 2162078206, 2614888103,
  3248222580, 3835390401, 4022224774, 264347078, 604807628,
  770255983, 1249150122, 1555081692, 1996064986, 2554220882,
  2821834349, 2952996808, 3210313671, 3336571891, 3584528711,
  113926993, 338241895, 666307205, 773529912, 1294757372,
  1396182291, 1695183700, 1986661051, 2177026350, 2456956037,
  2730485921, 2820302411, 3259730800, 3345764771, 3516065817,
  3600352804, 4094571909, 275423344, 430227734, 506948616,
  659060556, 883997877, 958139571, 1322822218, 1537002063,
  1747873779, 1955562222, 2024104815, 2227730452, 2361852424,
  2428436474, 2756734187, 3204031479, 3329325298]

/-- The initial SHA-256 hash state, written in decimal. -/
def sha256InitHash : Array Nat := #[
  1779033703, 3144134277, 1013904242, 2773480762, 1359893119,
  2600822924, 528734635, 1541459225]

/-- Pad a byte message per FIPS 180-4: append `0x80`, zeros up to 56 mod 64,
then the bit length as 8 big-endian bytes. -/
def sha256Pad (msg : List Nat) : List Nat :=
  let len := msg.length
  let bitLen := len * 8
  let zeros := (120 - (len + 1) % 64) % 64
  msg ++ [128] ++ List.replicate zeros 0 ++
    [bitLen / 72057594037927936 % 256, bitLen / 281474976710656 % 256,
     bitLen / 1099511627776 % 256, bitLen / 4294967296 % 256,
     bitLen / 16777216 % 256, bitLen / 65536 % 256,
     bitLen / 256 % 256, bitLen % 256]

/-- Split a padded message into 64-byte chunks. -/
def chunks64 (l : List Nat) : List (List Nat) :=
  (List.range (l.length / 64)).map (fun i => (l.drop (64 * i)).take 64)

/-- The 64-word message schedule of one chunk. -/
def sha256Schedule (chunk : List Nat) : Array Nat := Id.run do
  let mut w : Array Nat := Array.mkArray 64 0
  for i in [0:16] do
    w := w.set! i
      (chunk.getD (4 * i) 0 * 16777216 + chunk.getD (4 * i + 1) 0 * 65536 +
       chunk.getD (4 * i + 2) 0 * 256 + chunk.getD (4 * i + 3) 0)
  for i in [16:64] do
    w := w.set! i
      (w32 (w.getD (i - 16) 0 + sha256SmallS0 (w.getD (i - 15) 0) +
            w.getD (i - 7) 0 + sha256SmallS1 (w.getD (i - 2) 0)))
  return w

/-- One application of the SHA-256 compression function. -/
def sha256Compress (hs : Array Nat) (chunk : List Nat) : Array Nat := Id.run do
  let w := sha256Schedule chunk
  let mut a := hs.getD 0 0
  let mut b := hs.getD 1 0
  let mut c := hs.getD 2 0
  let mut d := hs.getD 3 0
  let mut e := hs.getD 4 0
  let mut f := hs.getD 5 0
  let mut g := hs.getD 6 0
  let mut hh := hs.getD 7 0
  for i in [0:64] do
    let temp1 := w32 (hh + sha256BigS1 e + sha256Ch e f g + sha256K.getD i 0 + w.getD i 0)
    let temp2 := w32 (sha256BigS0 a + sha256Maj a b c)
    hh := g
    g := f
    f := e
    e := w32 (d + temp1)
    d := c
    c := b
    b := a
    a := w32 (temp1 + temp2)
  return #[w32 (hs.getD 0 0 + a), w32 (hs.getD 1 0 + b), w32 (hs.getD 2 0 + c),
           w32 (hs.getD 3 0 + d), w32 (hs.getD 4 0 + e), w32 (hs.getD 5 0 + f),
           w32 (hs.getD 6 0 + g), w32 (hs.getD 7 0 + hh)]

/-- SHA-256 digest of a byte message, as the list of its 32 bytes. -/
def sha256Bytes (msg : List Nat) : List Nat :=
  let final := (chunks64 (sha256Pad msg)).foldl sha256Compress sha256InitHash
  final.toList.foldr
    (fun x acc => x / 16777216 % 256 :: x / 65536 % 256 :: x / 256 % 256 :: x % 256 :: acc) []

/-- One lowercase hex digit, as `digest("hex")` produces. -/
def hexDigitChar (n : Nat) : Char := "0123456789abcdef".toList.getD n '0'

/-- Hex rendering of a byte list (two digits per byte). -/
def toHex (bytes : List Nat) : List Char :=
  bytes.foldr (fun b acc => hexDigitChar (b / 16 % 16) :: hexDigitChar (b % 16) :: acc) []

/-- Numeric value of a lowercase hex digit, as `parseInt(-, 16)` reads it. -/
def hexCharVal (c : Char) : Nat := "0123456789abcdef".toList.indexOf c % 16

/-- `parseInt(s, 16)` on a string of hex digits. -/
def parseIntHex (cs : List Char) : Nat := cs.foldl (fun acc c => acc * 16 + hexCharVal c) 0

/-- UTF-8 bytes of a string, as `createHash(..).update(jobId)` consumes. -/
def utf8Bytes (s : String) : List Nat := s.toUTF8.toList.map (fun b => b.toNat)

/-- `jobIdToLockId`: first 8 hex digits of the SHA-256 digest, read base 16. -/
def jobIdToLockId (jobId : String) : Nat :=
  parseIntHex ((toHex (sha256Bytes (utf8Bytes jobId))).take 8)

/-! ## Data model

Shallow embedding of the Prisma rows touched by `StartRunService` and of the
shapes returned by `findRun` / `createRunConnections`. -/

/-- `Integration.authSource` (Prisma enum). -/
inductive AuthSource where
  | LOCAL
  | RESOLVER
  | HOSTED
deriving DecidableEq, Repr

/-- `ConnectionType` (Prisma enum). -/
inductive ConnectionType where
  | DEVELOPER
  | EXTERNAL
deriving DecidableEq, Repr

/-- `JobRun.status`.  The pipeline only distinguishes the startable statuses
`PENDING` and `WAITING_ON_CONNECTIONS` plus `QUEUED`; the remaining members
of the Prisma enum are represented by the statuses below that the pipeline
never writes. -/
inductive JobRunStatus where
  | PENDING
  | QUEUED
  | WAITING_ON_CONNECTIONS
  | STARTED
  | SUCCESS
  | FAILURE
deriving DecidableEq, Repr

/-- An `Integration` row (the fields the service reads). -/
structure Integration where
  id : String
  authSource : AuthSource
deriving DecidableEq, Repr

/-- One element of `version.integrations`: a job-integration requirement with
its stable `key` and the included `Integration`. -/
structure JobIntegration where
  key : String
  integration : Integration
deriving DecidableEq, Repr

/-- The included `version` of a found run: its declared requirements. -/
structure JobVersionRec where
  integrations : List JobIntegration
deriving DecidableEq, Repr

/-- A `JobRun` row (the fields the service reads or writes). -/
structure JobRun where
  id : String
  jobId : String
  status : JobRunStatus
  externalAccountId : Option String
  number : Option Nat
  queuedAt : Option Nat
  version : JobVersionRec
deriving DecidableEq, Repr

/-- An `IntegrationConnection` row. -/
structure IntegrationConnection where
  id : String
  integrationId : String
  connectionType : ConnectionType
  externalAccountId : Option String
deriving DecidableEq, Repr

/-- A `MissingConnection` row. -/
structure MissingConnection where
  id : String
  integrationId : String
  connectionType : ConnectionType
  accountIdentifier : String
  externalAccountId : Option String
  resolved : Bool
deriving DecidableEq, Repr

/-- A `RunConnection` binding row created by the queue transition
(`runConnections.create`). -/
structure RunConnectionRow where
  key : String
  connectionId : Option String
  integrationId : String
  authSource : AuthSource
deriving DecidableEq, Repr

/-- The transactional store: every table the service touches.
`jobCounters` maps `jobId` to `lastNumber`; `runConnections` pairs each
created binding row with its run; `missingConnectionRuns` is the implicit
many-to-many join table between `MissingConnection` and `JobRun`. -/
structure DB where
  runs : List JobRun
  connections : List IntegrationConnection
  jobCounters : List (String × Nat)
  missingConnections : List MissingConnection
  runConnections : List (String × RunConnectionRow)
  missingConnectionRuns : List (String × String)
deriving DecidableEq, Repr

/-- The four-way classification produced by `createRunConnections` for one
requirement key. -/
inductive RunConnectionResult where
  | resolvedHosted (connection : IntegrationConnection) (integration : Integration)
  | resolvedLocal (integration : Integration)
  | resolvedResolver (integration : Integration)
  | missing (connectionType : ConnectionType) (integration : Integration)
      (externalAccountId : Option String)
deriving DecidableEq, Repr

/-- Observable side effects of one `call`: provisioning notifications
(`workerQueue.enqueue("missingConnectionCreated", ..)`, by missing-connection
id), execution dispatches (`ResumeRunService.enqueue`, by run id), and the
ordered log of operations issued by the queue transition's transaction body
before it committed or aborted. -/
inductive Event where
  | lockAcquired (lockId : Nat)
  | counterUpserted (jobId : String) (value : Nat)
  | runUpdated (runId : String)
  | dispatchEnqueued (runId : String)
deriving DecidableEq, Repr

structure Effects where
  notifications : List String
  dispatches : List String
  txLog : List Event
deriving DecidableEq, Repr

def emptyEffects : Effects := ⟨[], [], []⟩

/-- Outcome of the interactive transaction in `#startRun`: it commits, or it
fails before the `jobRun.update` statement has run, or it fails after that
statement has run (e.g. at the dispatch enqueue or at commit). -/
inductive TxOutcome where
  | committed
  | abortedBeforeRunUpdate
  | abortedAfterRunUpdate
deriving DecidableEq, Repr

/-! ## Operations -/

/-- `findRun`: `jobRun.findUnique({ where: { id } })` with its includes. -/
def findRun (db : DB) (id : String) : Option JobRun :=
  db.runs.find? (fun r => r.id == id)

/-- `#runIsStartable`: status is `PENDING` or `WAITING_ON_CONNECTIONS`. -/
def runIsStartable (run : JobRun) : Bool :=
  [JobRunStatus.PENDING, JobRunStatus.WAITING_ON_CONNECTIONS].contains run.status

/-- The body of the `reduce` in `createRunConnections`, classifying one
requirement: `LOCAL` and `RESOLVER` need no binding; otherwise (`HOSTED`)
one `integrationConnection.findFirst` runs — against `EXTERNAL` rows with
the run's `externalAccountId` when the run carries one, against `DEVELOPER`
rows otherwise — and a miss yields the `missing` variant. -/
def resolveJobIntegration (db : DB) (run : JobRun) (ji : JobIntegration) :
    RunConnectionResult :=
  if ji.integration.authSource == AuthSource.LOCAL then
    RunConnectionResult.resolvedLocal ji.integration
  else if ji.integration.authSource == AuthSource.RESOLVER then
    RunConnectionResult.resolvedResolver ji.integration
  else
    let connection :=
      match run.externalAccountId with
      | some acct =>
          db.connections.find? (fun c =>
            c.integrationId == ji.integration.id &&
            c.connectionType == ConnectionType.EXTERNAL &&
            c.externalAccountId == some acct)
      | none =>
          db.connections.find? (fun c =>
            c.integrationId == ji.integration.id &&
            c.connectionType == ConnectionType.DEVELOPER)
    match connection with
    | some c => RunConnectionResult.resolvedHosted c ji.integration
    | none =>
        RunConnectionResult.missing
          (if run.externalAccountId.isSome then ConnectionType.EXTERNAL
           else ConnectionType.DEVELOPER)
          ji.integration run.externalAccountId

/-- Assignment `acc[key] = v` on a JavaScript object modelled as an
association list: replace in place if the key exists, else append. -/
def recordInsert (acc : List (String × RunConnectionResult)) (k : String)
    (v : RunConnectionResult) : List (String × RunConnectionResult) :=
  if acc.any (fun p => p.1 == k) then
    acc.map (fun p => if p.1 == k then (k, v) else p)
  else acc ++ [(k, v)]

/-- Lookup in the record. -/
def lookupAssoc (l : List (String × RunConnectionResult)) (k : String) :
    Option RunConnectionResult :=
  (l.find? (fun p => p.1 == k)).map (fun p => p.2)

/-- `createRunConnections`: fold the classification over the version's
requirements, building the record keyed by requirement key. -/
def createRunConnections (db : DB) (run : JobRun) :
    List (String × RunConnectionResult) :=
  run.version.integrations.foldl
    (fun acc ji => recordInsert acc ji.key (resolveJobIntegration db run ji)) []

/-- `hasMissingConnections`. -/
def hasMissingConnections (rcbk : List (String × RunConnectionResult)) : Bool :=
  rcbk.any (fun p =>
    match p.2 with
    | RunConnectionResult.missing _ _ _ => true
    | _ => false)

/-- `jobRun.update({ where: { id } })`: apply `f` to the run(s) whose id
matches. -/
def updateRun (db : DB) (id : String) (f : JobRun → JobRun) : DB :=
  { db with runs := db.runs.map (fun r => if r.id == id then f r else r) }

/-- `jobCounter.upsert`: create at `lastNumber = 1` or increment the stored
value; returns the selected `lastNumber` together with the updated table. -/
def upsertJobCounter (counters : List (String × Nat)) (jobId : String) :
    Nat × List (String × Nat) :=
  match counters.find? (fun p => p.1 == jobId) with
  | some p =>
      (p.2 + 1, counters.map (fun q => if q.1 == jobId then (q.1, p.2 + 1) else q))
  | none => (1, counters ++ [(jobId, 1)])

/-- The `createRunConnections` payload built at the top of `#startRun`: one
binding row per resolved requirement (hosted rows carry the connection id,
local/resolver rows only the classification); missing entries are dropped by
`filter(Boolean)`. -/
def buildCreateRows (rcbk : List (String × RunConnectionResult)) :
    List RunConnectionRow :=
  rcbk.filterMap (fun p =>
    match p.2 with
    | RunConnectionResult.resolvedHosted c i =>
        some ⟨p.1, some c.id, i.id, AuthSource.HOSTED⟩
    | RunConnectionResult.resolvedLocal i =>
        some ⟨p.1, none, i.id, AuthSource.LOCAL⟩
    | RunConnectionResult.resolvedResolver i =>
        some ⟨p.1, none, i.id, AuthSource.RESOLVER⟩
    | RunConnectionResult.missing _ _ _ => none)

/-- The `jobRun.update` statement inside `#startRun`: set status `QUEUED`,
the sequence number, the queued-at timestamp, and create the binding rows.
In the source this statement runs on `this.#prismaClient`, the main client,
not on the transaction client `tx`, so its writes are applied independently
of the enclosing transaction. -/
def applyRunUpdate (db : DB) (id : String) (number : Nat) (now : Nat)
    (rows : List RunConnectionRow) : DB :=
  let db' := updateRun db id (fun r =>
    { r with status := JobRunStatus.QUEUED, number := some number,
             queuedAt := some now })
  { db' with runConnections := db'.runConnections ++ rows.map (fun row => (id, row)) }

/-- `#startRun`: the queue transition.  The transaction body acquires the
advisory lock, upserts the counter on `tx`, runs the `jobRun.update` on the
main client, and enqueues the dispatch on `tx`.  On `committed` every write
persists; on `abortedBeforeRunUpdate` the transaction rolls back before the
run update has run, leaving the store unchanged; on `abortedAfterRunUpdate`
the counter upsert rolls back with the transaction, but the run update —
issued outside `tx` — persists, and no dispatch is enqueued. -/
def startRun (db : DB) (id : String) (run : JobRun)
    (rcbk : List (String × RunConnectionResult)) (outcome : TxOutcome)
    (now : Nat) : DB × Effects :=
  let rows := buildCreateRows rcbk
  let lockId := jobIdToLockId run.jobId
  match outcome with
  | TxOutcome.abortedBeforeRunUpdate =>
      (db, ⟨[], [], [Event.lockAcquired lockId]⟩)
  | TxOutcome.abortedAfterRunUpdate =>
      let v := (upsertJobCounter db.jobCounters run.jobId).1
      (applyRunUpdate db id v now rows,
       ⟨[], [],
        [Event.lockAcquired lockId, Event.counterUpserted run.jobId v,
         Event.runUpdated id]⟩)
  | TxOutcome.committed =>
      let v := (upsertJobCounter db.jobCounters run.jobId).1
      let counters := (upsertJobCounter db.jobCounters run.jobId).2
      (applyRunUpdate { db with jobCounters := counters } id v now rows,
       ⟨[], [id],
        [Event.lockAcquired lockId, Event.counterUpserted run.jobId v,
         Event.runUpdated id, Event.dispatchEnqueued id]⟩)

/-- The fields of one `missing` entry handed to `#handleMissingConnections`. -/
structure MissingInfo where
  connectionType : ConnectionType
  integration : Integration
  externalAccountId : Option String
deriving DecidableEq, Repr

/-- The `missingConnections` list at the top of `#handleMissingConnections`:
`Object.values(..).map(c => c.result === "missing" ? c : undefined).filter(Boolean)`. -/
def missingOf (rcbk : List (String × RunConnectionResult)) : List MissingInfo :=
  rcbk.filterMap (fun p =>
    match p.2 with
    | RunConnectionResult.missing ct i ext => some ⟨ct, i, ext⟩
    | _ => none)

/-- The `where` key of the `connectOrCreate`:
`(integrationId, connectionType, accountIdentifier)` with
`accountIdentifier = externalAccountId ?? "DEVELOPER"`. -/
def missingConnectionWhere (m : MissingInfo) : String × ConnectionType × String :=
  (m.integration.id, m.connectionType, m.externalAccountId.getD "DEVELOPER")

def connectionTypeName : ConnectionType → String
  | ConnectionType.DEVELOPER => "DEVELOPER"
  | ConnectionType.EXTERNAL => "EXTERNAL"

/-- Row ids are generated by the store; we model the generator as a
deterministic function of the row's unique natural key, which the unique
constraint on `(integrationId, connectionType, accountIdentifier)` makes
faithful up to renaming. -/
def mkMissingConnectionId (integrationId : String) (ct : ConnectionType)
    (acct : String) : String :=
  integrationId ++ "/" ++ connectionTypeName ct ++ "/" ++ acct

/-- The `create` payload of the `connectOrCreate`. -/
def missingConnectionCreate (m : MissingInfo) : MissingConnection :=
  { id := mkMissingConnectionId m.integration.id m.connectionType
      (m.externalAccountId.getD "DEVELOPER"),
    integrationId := m.integration.id,
    connectionType := m.connectionType,
    accountIdentifier := m.externalAccountId.getD "DEVELOPER",
    externalAccountId := m.externalAccountId,
    resolved := false }

/-- Connect a run to a missing connection in the implicit many-to-many join
table; connecting an already-connected pair is a no-op. -/
def connectPair (l : List (String × String)) (mcId runId : String) :
    List (String × String) :=
  if l.contains (mcId, runId) then l else l ++ [(mcId, runId)]

/-- One `connectOrCreate` entry: look the row up by the unique triple and
connect the run to it, or create it and connect the run. -/
def connectOrCreateMissing (db : DB) (runId : String) (m : MissingInfo) : DB :=
  match db.missingConnections.find? (fun mc =>
    mc.integrationId == (missingConnectionWhere m).1 &&
    mc.connectionType == (missingConnectionWhere m).2.1 &&
    mc.accountIdentifier == (missingConnectionWhere m).2.2) with
  | some mc =>
      { db with missingConnectionRuns := connectPair db.missingConnectionRuns mc.id runId }
  | none =>
      let mc := missingConnectionCreate m
      { db with
        missingConnections := db.missingConnections ++ [mc],
        missingConnectionRuns := connectPair db.missingConnectionRuns mc.id runId }

/-- Number of runs associated with a missing connection
(the `_count.runs` of the include). -/
def runsCount (db : DB) (mcId : String) : Nat :=
  (db.missingConnectionRuns.filter (fun p => p.1 == mcId)).length

/-- `#handleMissingConnections`: one `jobRun.update` that sets the status to
`WAITING_ON_CONNECTIONS` and `connectOrCreate`s every missing connection,
followed by the notification loop over the updated run's missing
connections, enqueuing `missingConnectionCreated` for each whose associated
run count is exactly 1. -/
def handleMissingConnections (db : DB) (id : String)
    (rcbk : List (String × RunConnectionResult)) : DB × Effects :=
  let missings := missingOf rcbk
  let db1 := updateRun db id (fun r =>
    { r with status := JobRunStatus.WAITING_ON_CONNECTIONS })
  let db2 := missings.foldl (fun d m => connectOrCreateMissing d id m) db1
  let attached := db2.missingConnections.filter (fun mc =>
    db2.missingConnectionRuns.contains (mc.id, id))
  let notifs := (attached.filter (fun mc => runsCount db2 mc.id == 1)).map
    (fun mc => mc.id)
  (db2, ⟨notifs, [], []⟩)

/-- `StartRunService.call`: find the run; silently return unless it is
startable; resolve the requirements; branch to the missing-connection
tracker or to the queue transition. -/
def call (db : DB) (id : String) (outcome : TxOutcome) (now : Nat) :
    DB × Effects :=
  match findRun db id with
  | none => (db, emptyEffects)
  | some run =>
      if runIsStartable run then
        let rcbk := createRunConnections db run
        if hasMissingConnections rcbk then
          handleMissingConnections db id rcbk
        else
          startRun db id run rcbk outcome now
      else (db, emptyEffects)

/-- Status of the run with the given id. -/
def runStatus (db : DB) (id : String) : Option JobRunStatus :=
  (findRun db id).map (fun r => r.status)

/-! ## Spec-side comparator for the Connection Resolver -/

/-- Modelled from the spec: §4.1's four-outcome classification of one
IntegrationRequirement, written following the spec's words — `LOCAL` needs
no binding, `RESOLVER` needs no binding, and for `HOSTED` exactly one
lookup runs: of type `EXTERNAL` with the run's exact external-account
identifier when the run carries one, otherwise of type `DEVELOPER`, with no
fallback between the two; a hit is `resolved-hosted`, a miss is `missing`
carrying the needed connection type and account identifier. -/
def specResolveRequirement (db : DB) (run : JobRun) (ji : JobIntegration) :
    RunConnectionResult :=
  match ji.integration.authSource with
  | AuthSource.LOCAL => RunConnectionResult.resolvedLocal ji.integration
  | AuthSource.RESOLVER => RunConnectionResult.resolvedResolver ji.integration
  | AuthSource.HOSTED =>
      match run.externalAccountId with
      | some acct =>
          match db.connections.find? (fun c =>
            c.integrationId == ji.integration.id &&
            c.connectionType == ConnectionType.EXTERNAL &&
            c.externalAccountId == some acct) with
          | some c => RunConnectionResult.resolvedHosted c ji.integration
          | none =>
              RunConnectionResult.missing ConnectionType.EXTERNAL ji.integration
                (some acct)
      | none =>
          match db.connections.find? (fun c =>
            c.integrationId == ji.integration.id &&
            c.connectionType == ConnectionType.DEVELOPER) with
          | some c => RunConnectionResult.resolvedHosted c ji.integration
          | none =>
              RunConnectionResult.missing ConnectionType.DEVELOPER ji.integration
                none

end StartRun

namespace ShopifyIntegration

/-! ## The Shopify integration's auth-source classification

Embedding of the `Shopify` class constructor and its `authSource` getter.
The optional `apiKey` field of `ShopifyIntegrationOptions` distinguishes the
key being absent, explicitly present with value `undefined`, and present
with a string value, because `Object.keys(options).includes("apiKey")` sees
an explicitly-`undefined` key while `options.apiKey` is falsy for it. -/

inductive ApiKeyOption where
  | absent
  | presentUndefined
  | present (value : String)
deriving DecidableEq, Repr

structure ShopifyIntegrationOptions where
  id : String
  apiKey : ApiKeyOption
  apiSecretKey : String
  adminAccessToken : String
  hostName : String
deriving DecidableEq, Repr

/-- JavaScript truthiness of `options.apiKey`: an absent or `undefined` key
is falsy, and so is the empty string. -/
def apiKeyTruthy : ApiKeyOption → Bool
  | ApiKeyOption.present v => v ≠ ""
  | _ => false

/-- `Object.keys(options).includes("apiKey")`. -/
def apiKeyPresent : ApiKeyOption → Bool
  | ApiKeyOption.absent => false
  | _ => true

structure Shopify where
  options : ShopifyIntegrationOptions
deriving DecidableEq, Repr

/-- The `Shopify` constructor: throws when the `apiKey` key is present in
the options object but its value is falsy. -/
def construct (options : ShopifyIntegrationOptions) : Except String Shopify :=
  if apiKeyPresent options.apiKey && !apiKeyTruthy options.apiKey then
    Except.error
      ("Can't create Shopify integration (" ++ options.id ++ ") as apiKey was undefined")
  else Except.ok ⟨options⟩

/-- The `authSource` getter: `this._options.apiKey ? "LOCAL" : "HOSTED"`. -/
def Shopify.authSource (s : Shopify) : String :=
  if apiKeyTruthy s.options.apiKey then "LOCAL" else "HOSTED"

end ShopifyIntegration

namespace StartRun

/-! ## Helper lemmas -/

lemma hexCharVal_lt (c : Char) : hexCharVal c < 16 :=
  Nat.mod_lt _ (by norm_num)

lemma parseIntHex_foldl_lt (cs : List Char) :
    ∀ acc : Nat,
      cs.foldl (fun a c => a * 16 + hexCharVal c) acc < (acc + 1) * 16 ^ cs.length := by
  induction cs with
  | nil =>
      intro acc
      simp only [List.foldl_nil, List.length_nil, pow_zero, mul_one]
      omega
  | cons c cs ih =>
      intro acc
      have h1 := ih (acc * 16 + hexCharVal c)
      have h2 : hexCharVal c < 16 := hexCharVal_lt c
      have h3 : (acc * 16 + hexCharVal c + 1) * 16 ^ cs.length ≤
          ((acc + 1) * 16) * 16 ^ cs.length := by
        apply Nat.mul_le_mul_right
        omega
      calc (c :: cs).foldl (fun a c => a * 16 + hexCharVal c) acc
          = cs.foldl (fun a c => a * 16 + hexCharVal c) (acc * 16 + hexCharVal c) := rfl
        _ < (acc * 16 + hexCharVal c + 1) * 16 ^ cs.length := h1
        _ ≤ ((acc + 1) * 16) * 16 ^ cs.length := h3
        _ = (acc + 1) * 16 ^ (c :: cs).length := by
            simp [List.length_cons, Nat.pow_succ]; ring

lemma parseIntHex_lt (cs : List Char) : parseIntHex cs < 16 ^ cs.length := by
  have h := parseIntHex_foldl_lt cs 0
  simpa [parseIntHex] using h

/-- `find?` after a conditional in-place map that preserves the predicate. -/
lemma find?_map_if {α : Type} (p : α → Bool) (f : α → α)
    (hf : ∀ a, p a = true → p (f a) = true) :
    ∀ l : List α,
      (l.map (fun a => if p a then f a else a)).find? p = (l.find? p).map f := by
  intro l
  induction l with
  | nil => rfl
  | cons a l ih =>
      cases hpa : p a with
      | true =>
          rw [List.map_cons, if_pos hpa, List.find?_cons_of_pos _ (hf a hpa),
              List.find?_cons_of_pos _ hpa]
          rfl
      | false =>
          have hne : ¬ p a = true := by simp [hpa]
          rw [List.map_cons, if_neg hne, List.find?_cons_of_neg _ hne,
              List.find?_cons_of_neg _ hne]
          exact ih

/-- `find?` after a conditional in-place map whose condition excludes the
predicate, before and after the rewrite. -/
lemma find?_map_if_ne {α : Type} (p q : α → Bool) (f : α → α)
    (h1 : ∀ a, q a = true → p a = false)
    (h2 : ∀ a, q a = true → p (f a) = false) :
    ∀ l : List α,
      (l.map (fun a => if q a then f a else a)).find? p = l.find? p := by
  intro l
  induction l with
  | nil => rfl
  | cons a l ih =>
      cases hq : q a with
      | true =>
          have hne : ¬ p a = true := by simp [h1 a hq]
          have hnef : ¬ p (f a) = true := by simp [h2 a hq]
          rw [List.map_cons, if_pos hq, List.find?_cons_of_neg _ hnef,
              List.find?_cons_of_neg _ hne]
          exact ih
      | false =>
          have hnq : ¬ q a = true := by simp [hq]
          cases hp : p a with
          | true =>
              rw [List.map_cons, if_neg hnq, List.find?_cons_of_pos _ hp,
                  List.find?_cons_of_pos _ hp]
          | false =>
              have hnp : ¬ p a = true := by simp [hp]
              rw [List.map_cons, if_neg hnq, List.find?_cons_of_neg _ hnp,
                  List.find?_cons_of_neg _ hnp]
              exact ih

lemma find?_append_of_none {α : Type} (p : α → Bool) (l₁ l₂ : List α)
    (h : l₁.find? p = none) : (l₁ ++ l₂).find? p = l₂.find? p := by
  simp [List.find?_append, h]

lemma find?_append_of_some {α : Type} (p : α → Bool) (l₁ l₂ : List α) (a : α)
    (h : l₁.find? p = some a) : (l₁ ++ l₂).find? p = some a := by
  simp [List.find?_append, h]

lemma findRun_updateRun (db : DB) (id : String) (f : JobRun → JobRun)
    (hf : ∀ r, (f r).id = r.id) :
    findRun (updateRun db id f) id = (findRun db id).map f := by
  have h := find?_map_if (fun r => r.id == id) f
    (fun r hr => by simpa [hf r] using hr) db.runs
  simpa [findRun, updateRun] using h

lemma findRun_applyRunUpdate (db : DB) (id : String) (v now : Nat)
    (rows : List RunConnectionRow) :
    findRun (applyRunUpdate db id v now rows) id
      = (findRun db id).map (fun r =>
          { r with status := JobRunStatus.QUEUED, number := some v,
                   queuedAt := some now }) := by
  have h := findRun_updateRun db id (fun r =>
    { r with status := JobRunStatus.QUEUED, number := some v, queuedAt := some now })
    (fun r => rfl)
  simpa [applyRunUpdate, findRun, updateRun] using h

lemma applyRunUpdate_jobCounters (db : DB) (id : String) (v now : Nat)
    (rows : List RunConnectionRow) :
    (applyRunUpdate db id v now rows).jobCounters = db.jobCounters := rfl

lemma applyRunUpdate_runConnections (db : DB) (id : String) (v now : Nat)
    (rows : List RunConnectionRow) :
    (applyRunUpdate db id v now rows).runConnections
      = db.runConnections ++ rows.map (fun row => (id, row)) := rfl

lemma connectOrCreateMissing_frame (db : DB) (runId : String) (m : MissingInfo) :
    (connectOrCreateMissing db runId m).runs = db.runs ∧
    (connectOrCreateMissing db runId m).jobCounters = db.jobCounters ∧
    (connectOrCreateMissing db runId m).runConnections = db.runConnections ∧
    (connectOrCreateMissing db runId m).connections = db.connections := by
  unfold connectOrCreateMissing
  split <;> simp

lemma foldl_connect_frame (missings : List MissingInfo) (runId : String) :
    ∀ db : DB,
      (missings.foldl (fun d m => connectOrCreateMissing d runId m) db).runs = db.runs ∧
      (missings.foldl (fun d m => connectOrCreateMissing d runId m) db).jobCounters
        = db.jobCounters ∧
      (missings.foldl (fun d m => connectOrCreateMissing d runId m) db).runConnections
        = db.runConnections ∧
      (missings.foldl (fun d m => connectOrCreateMissing d runId m) db).connections
        = db.connections := by
  induction missings with
  | nil => intro db; exact ⟨rfl, rfl, rfl, rfl⟩
  | cons m ms ih =>
      intro db
      have h1 := connectOrCreateMissing_frame db runId m
      have h2 := ih (connectOrCreateMissing db runId m)
      exact ⟨h2.1.trans h1.1, h2.2.1.trans h1.2.1, h2.2.2.1.trans h1.2.2.1,
             h2.2.2.2.trans h1.2.2.2⟩

lemma handleMissing_frame (db : DB) (id : String)
    (rcbk : List (String × RunConnectionResult)) :
    (handleMissingConnections db id rcbk).1.jobCounters = db.jobCounters ∧
    (handleMissingConnections db id rcbk).1.runConnections = db.runConnections ∧
    (handleMissingConnections db id rcbk).2.dispatches = [] ∧
    (handleMissingConnections db id rcbk).2.txLog = [] ∧
    findRun (handleMissingConnections db id rcbk).1 id
      = (findRun db id).map (fun r =>
          { r with status := JobRunStatus.WAITING_ON_CONNECTIONS }) := by
  have hfold := foldl_connect_frame (missingOf rcbk) id
    (updateRun db id (fun r => { r with status := JobRunStatus.WAITING_ON_CONNECTIONS }))
  have hupd := findRun_updateRun db id
    (fun r => { r with status := JobRunStatus.WAITING_ON_CONNECTIONS }) (fun r => rfl)
  refine ⟨?_, ?_, rfl, rfl, ?_⟩
  · simpa [handleMissingConnections, updateRun] using hfold.2.1
  · simpa [handleMissingConnections, updateRun] using hfold.2.2.1
  · have hruns : (handleMissingConnections db id rcbk).1.runs
        = (updateRun db id (fun r =>
            { r with status := JobRunStatus.WAITING_ON_CONNECTIONS })).runs := by
      simpa [handleMissingConnections] using hfold.1
    calc findRun (handleMissingConnections db id rcbk).1 id
        = findRun (updateRun db id (fun r =>
            { r with status := JobRunStatus.WAITING_ON_CONNECTIONS })) id := by
          unfold findRun; rw [hruns]
      _ = (findRun db id).map (fun r =>
            { r with status := JobRunStatus.WAITING_ON_CONNECTIONS }) := hupd

lemma lookupAssoc_recordInsert_self (acc : List (String × RunConnectionResult))
    (k : String) (v : RunConnectionResult) :
    lookupAssoc (recordInsert acc k v) k = some v := by
  unfold recordInsert
  by_cases h : acc.any (fun p => p.1 == k)
  · rw [if_pos h]
    have hmap := find?_map_if (fun p : String × RunConnectionResult => p.1 == k)
      (fun _ => (k, v)) (fun a _ => by simp) acc
    have hsome : (acc.find? (fun p => p.1 == k)).isSome := by
      rw [List.find?_isSome]
      rcases List.any_eq_true.mp h with ⟨x, hx, hpx⟩
      exact ⟨x, hx, hpx⟩
    rcases Option.isSome_iff_exists.mp hsome with ⟨x, hx⟩
    unfold lookupAssoc
    rw [hmap, hx]
    rfl
  · rw [if_neg h]
    have hnone : acc.find? (fun p => p.1 == k) = none := by
      rw [List.find?_eq_none]
      intro x hx
      simp only [List.any_eq_true, not_exists, not_and] at h
      simp [h x hx]
    unfold lookupAssoc
    rw [find?_append_of_none _ _ _ hnone]
    simp [List.find?]

lemma lookupAssoc_recordInsert_ne (acc : List (String × RunConnectionResult))
    (k' k : String) (v : RunConnectionResult) (hne : k' ≠ k) :
    lookupAssoc (recordInsert acc k' v) k = lookupAssoc acc k := by
  unfold recordInsert
  by_cases h : acc.any (fun p => p.1 == k')
  · rw [if_pos h]
    have hmap := find?_map_if_ne (fun p : String × RunConnectionResult => p.1 == k)
      (fun p : String × RunConnectionResult => p.1 == k') (fun _ => (k', v))
      (fun a ha => by
        have : a.1 = k' := by simpa using ha
        simp [this, hne])
      (fun a _ => by simp [hne]) acc
    unfold lookupAssoc
    rw [hmap]
  · rw [if_neg h]
    unfold lookupAssoc
    have hsingle : ([(k', v)].find? (fun p => p.1 == k)) = none := by
      have hb : (k' == k) = false := beq_eq_false_iff_ne.mpr hne
      simp [List.find?, hb]
    rw [List.find?_append, hsingle, Option.or_none]

lemma lookupAssoc_fold_skip (db : DB) (run : JobRun) (k : String) :
    ∀ (l : List JobIntegration) (acc : List (String × RunConnectionResult)),
      (∀ j ∈ l, j.key ≠ k) →
      lookupAssoc (l.foldl
          (fun a j => recordInsert a j.key (resolveJobIntegration db run j)) acc) k
        = lookupAssoc acc k := by
  intro l
  induction l with
  | nil => intro acc _; rfl
  | cons j l ih =>
      intro acc hk
      rw [List.foldl_cons, ih _ (fun j' hj' => hk j' (List.mem_cons_of_mem j hj')),
          lookupAssoc_recordInsert_ne _ _ _ _ (hk j (List.mem_cons_self j l))]

lemma lookupAssoc_fold_mem (db : DB) (run : JobRun) :
    ∀ (l : List JobIntegration) (acc : List (String × RunConnectionResult))
      (ji : JobIntegration), ji ∈ l → (l.map (fun j => j.key)).Nodup →
      lookupAssoc (l.foldl
          (fun a j => recordInsert a j.key (resolveJobIntegration db run j)) acc) ji.key
        = some (resolveJobIntegration db run ji) := by
  intro l
  induction l with
  | nil => intro acc ji h _; exact absurd h (List.not_mem_nil ji)
  | cons j l ih =>
      intro acc ji hmem hnodup
      rcases List.mem_cons.mp hmem with heq | hmem'
      · subst heq
        have hnotin : ji.key ∉ l.map (fun j => j.key) :=
          (List.nodup_cons.mp hnodup).1
        have hk : ∀ j' ∈ l, j'.key ≠ ji.key := by
          intro j' hj' hcontra
          exact hnotin (hcontra ▸ List.mem_map_of_mem (fun j => j.key) hj')
        rw [List.foldl_cons, lookupAssoc_fold_skip db run ji.key l _ hk,
            lookupAssoc_recordInsert_self]
      · rw [List.foldl_cons]
        exact ih _ ji hmem' (List.nodup_cons.mp hnodup).2

/-- The source's requirement classification coincides with the spec's
four-outcome rule. -/
lemma resolveJobIntegration_eq_spec (db : DB) (run : JobRun) (ji : JobIntegration) :
    resolveJobIntegration db run ji = specResolveRequirement db run ji := by
  unfold resolveJobIntegration specResolveRequirement
  cases hauth : ji.integration.authSource with
  | LOCAL => simp
  | RESOLVER => simp
  | HOSTED =>
      simp only [show (AuthSource.HOSTED == AuthSource.LOCAL) = false from rfl,
        show (AuthSource.HOSTED == AuthSource.RESOLVER) = false from rfl,
        Bool.false_eq_true, if_false]
      cases hacct : run.externalAccountId with
      | none => cases hfind : db.connections.find? (fun c =>
            c.integrationId == ji.integration.id &&
            c.connectionType == ConnectionType.DEVELOPER) <;>
          simp [hacct, hfind]
      | some acct => cases hfind : db.connections.find? (fun c =>
            c.integrationId == ji.integration.id &&
            c.connectionType == ConnectionType.EXTERNAL &&
            c.externalAccountId == some acct) <;>
          simp [hacct, hfind]

lemma upsertJobCounter_of_none (counters : List (String × Nat)) (jobId : String)
    (h : counters.find? (fun p => p.1 == jobId) = none) :
    (upsertJobCounter counters jobId).1 = 1 := by
  simp [upsertJobCounter, h]

lemma upsertJobCounter_of_some (counters : List (String × Nat)) (jobId : String)
    (p : String × Nat) (h : counters.find? (fun q => q.1 == jobId) = some p) :
    (upsertJobCounter counters jobId).1 = p.2 + 1 := by
  simp [upsertJobCounter, h]

lemma upsertJobCounter_find (counters : List (String × Nat)) (jobId : String) :
    (upsertJobCounter counters jobId).2.find? (fun q => q.1 == jobId)
      = some (jobId, (upsertJobCounter counters jobId).1) := by
  unfold upsertJobCounter
  cases h : counters.find? (fun p => p.1 == jobId) with
  | none =>
      rw [find?_append_of_none _ _ _ h]
      simp [List.find?]
  | some p =>
      have hmap := find?_map_if (fun q : String × Nat => q.1 == jobId)
        (fun q => (q.1, p.2 + 1)) (fun a ha => by simpa using ha) counters
      have hp1 : p.1 = jobId := by
        have := List.find?_some h
        simpa using this
      simp only []
      rw [hmap, h]
      simp [hp1]

lemma connectPair_idem (l : List (String × String)) (a b : String) :
    connectPair (connectPair l a b) a b = connectPair l a b := by
  unfold connectPair
  by_cases h : l.contains (a, b) = true
  · have hm : (a, b) ∈ l := by simpa using h
    simp [h, hm]
  · rw [if_neg h]
    have hmem : (l ++ [(a, b)]).contains (a, b) = true := by
      simp
    rw [if_pos hmem]

lemma call_not_found (db : DB) (id : String) (o : TxOutcome) (now : Nat)
    (h : findRun db id = none) : call db id o now = (db, emptyEffects) := by
  simp [call, h]

lemma call_not_startable (db : DB) (id : String) (o : TxOutcome) (now : Nat)
    (run : JobRun) (h : findRun db id = some run)
    (hs : runIsStartable run = false) : call db id o now = (db, emptyEffects) := by
  simp [call, h, hs]

lemma call_missing (db : DB) (id : String) (o : TxOutcome) (now : Nat)
    (run : JobRun) (h : findRun db id = some run)
    (hs : runIsStartable run = true)
    (hm : hasMissingConnections (createRunConnections db run) = true) :
    call db id o now = handleMissingConnections db id (createRunConnections db run) := by
  simp [call, h, hs, hm]

lemma call_start (db : DB) (id : String) (o : TxOutcome) (now : Nat)
    (run : JobRun) (h : findRun db id = some run)
    (hs : runIsStartable run = true)
    (hm : hasMissingConnections (createRunConnections db run) = false) :
    call db id o now = startRun db id run (createRunConnections db run) o now := by
  simp [call, h, hs, hm]

lemma findRun_set_counters (db : DB) (c : List (String × Nat)) (id : String) :
    findRun { db with jobCounters := c } id = findRun db id := rfl

lemma runIsStartable_cases (run : JobRun) (h : runIsStartable run = true) :
    run.status = JobRunStatus.PENDING ∨
    run.status = JobRunStatus.WAITING_ON_CONNECTIONS := by
  unfold runIsStartable at h
  cases hstat : run.status <;> rw [hstat] at h <;> simp_all

/-! ## Concrete fixtures -/

def sampleIntegration : Integration := ⟨"i1", AuthSource.HOSTED⟩

def sampleRequirement : JobIntegration := ⟨"k1", sampleIntegration⟩

/-- A pending run with one HOSTED requirement and no external account. -/
def sampleRun : JobRun :=
  ⟨"r1", "j1", JobRunStatus.PENDING, none, none, none, ⟨[sampleRequirement]⟩⟩

/-- A store in which `sampleRun`'s requirement has no connection. -/
def sampleDB : DB := ⟨[sampleRun], [], [], [], [], []⟩

/-- A pending run with no requirements. -/
def plainRun : JobRun := ⟨"r2", "j2", JobRunStatus.PENDING, none, none, none, ⟨[]⟩⟩

def plainDB : DB := ⟨[plainRun], [], [], [], [], []⟩

/-- An already-queued run. -/
def queuedRun : JobRun :=
  ⟨"r3", "j3", JobRunStatus.QUEUED, none, some 1, some 5, ⟨[]⟩⟩

def queuedDB : DB := ⟨[queuedRun], [], [("j3", 1)], [], [], []⟩

def devConnection : IntegrationConnection :=
  ⟨"c1", "i1", ConnectionType.DEVELOPER, none⟩

/-- A store in which `sampleRun`'s requirement resolves to `devConnection`. -/
def resolvedDB : DB := ⟨[sampleRun], [devConnection], [], [], [], []⟩

/-! ## Claims -/

/-- Claim C1 — the queue-transition writes are not all-or-nothing, contrary
to the claim: because the `jobRun.update` statement inside `#startRun` runs
on `this.#prismaClient` rather than on the transaction client `tx`, a
transaction that aborts after that statement leaves the Run `QUEUED` with a
fresh sequence number and created binding rows, while the `JobCounter`
upsert rolls back and no dispatch happens.  This theorem evaluates the code
at that failing point: the prior status was not `QUEUED`, yet afterwards the
status is `QUEUED`, the number is set, the binding rows persist, the
counters are unchanged, and nothing was dispatched. -/
theorem C1_queue_transition_not_atomic (db : DB) (id : String) (now : Nat)
    (run : JobRun) (h1 : findRun db id = some run)
    (h2 : runIsStartable run = true)
    (h3 : hasMissingConnections (createRunConnections db run) = false) :
    run.status ≠ JobRunStatus.QUEUED ∧
    (call db id TxOutcome.abortedAfterRunUpdate now).1.jobCounters = db.jobCounters ∧
    runStatus (call db id TxOutcome.abortedAfterRunUpdate now).1 id
      = some JobRunStatus.QUEUED ∧
    (findRun (call db id TxOutcome.abortedAfterRunUpdate now).1 id).map
        (fun r => r.number)
      = some (some (upsertJobCounter db.jobCounters run.jobId).1) ∧
    (call db id TxOutcome.abortedAfterRunUpdate now).1.runConnections
      = db.runConnections ++
        (buildCreateRows (createRunConnections db run)).map (fun row => (id, row)) ∧
    (call db id TxOutcome.abortedAfterRunUpdate now).2.dispatches = [] := by
  have hc := call_start db id TxOutcome.abortedAfterRunUpdate now run h1 h2 h3
  have hns : run.status ≠ JobRunStatus.QUEUED := by
    rcases runIsStartable_cases run h2 with hp | hw
    · rw [hp]; intro hcon; exact JobRunStatus.noConfusion hcon
    · rw [hw]; intro hcon; exact JobRunStatus.noConfusion hcon
  rw [hc]
  unfold startRun
  refine ⟨hns, rfl, ?_, ?_, rfl, rfl⟩
  · unfold runStatus
    rw [findRun_applyRunUpdate, h1]
    rfl
  · rw [findRun_applyRunUpdate, h1]
    rfl

theorem C1_queue_transition_not_atomic_witness :
    findRun plainDB "r2" = some plainRun ∧
    runIsStartable plainRun = true ∧
    hasMissingConnections (createRunConnections plainDB plainRun) = false ∧
    runStatus (call plainDB "r2" TxOutcome.abortedAfterRunUpdate 0).1 "r2"
      = some JobRunStatus.QUEUED ∧
    (call plainDB "r2" TxOutcome.abortedAfterRunUpdate 0).1.jobCounters
      = plainDB.jobCounters :=
  ⟨by decide, by decide, by decide,
   (C1_queue_transition_not_atomic plainDB "r2" 0 plainRun (by decide) (by decide)
      (by decide)).2.2.1,
   (C1_queue_transition_not_atomic plainDB "r2" 0 plainRun (by decide) (by decide)
      (by decide)).2.1⟩

/-- Claim C2: for every Run and every IntegrationRequirement of its
JobVersion (requirement keys being unique within the version), the
Connection Resolver assigns the requirement exactly the spec's four-outcome
classification: `resolved-local` for `LOCAL`, `resolved-by-resolver` for
`RESOLVER`, and for `HOSTED` one single lookup — `EXTERNAL` with the run's
exact external-account identifier when present, `DEVELOPER` otherwise, no
fallback — yielding `resolved-hosted` on a hit and `missing` (carrying the
needed connection type and account identifier) on a miss. -/
theorem C2_connection_resolver_outcomes (db : DB) (run : JobRun)
    (ji : JobIntegration) (h1 : ji ∈ run.version.integrations)
    (h2 : (run.version.integrations.map (fun j => j.key)).Nodup) :
    lookupAssoc (createRunConnections db run) ji.key
      = some (specResolveRequirement db run ji) := by
  rw [← resolveJobIntegration_eq_spec]
  exact lookupAssoc_fold_mem db run run.version.integrations [] ji h1 h2

theorem C2_connection_resolver_outcomes_witness :
    sampleRequirement ∈ sampleRun.version.integrations ∧
    (sampleRun.version.integrations.map (fun j => j.key)).Nodup ∧
    lookupAssoc (createRunConnections resolvedDB sampleRun) sampleRequirement.key
      = some (specResolveRequirement resolvedDB sampleRun sampleRequirement) :=
  ⟨by decide, by decide,
   C2_connection_resolver_outcomes resolvedDB sampleRun sampleRequirement
     (by decide) (by decide)⟩

/-- Claim C3: `activate(runId)` is a silent no-op when the Run is absent or
its status is neither `PENDING` nor `WAITING_ON_CONNECTIONS`; otherwise it
branches on the resolver's output — zero missing entries go to the queue
transition (status `QUEUED` on commit), one or more missing entries go to
the missing-connection tracker (status `WAITING_ON_CONNECTIONS`). -/
theorem C3_activation_gate (db : DB) (id : String) (o : TxOutcome) (now : Nat) :
    (findRun db id = none → call db id o now = (db, emptyEffects)) ∧
    (∀ run, findRun db id = some run →
       run.status ≠ JobRunStatus.PENDING →
       run.status ≠ JobRunStatus.WAITING_ON_CONNECTIONS →
       call db id o now = (db, emptyEffects)) ∧
    (∀ run, findRun db id = some run → runIsStartable run = true →
       hasMissingConnections (createRunConnections db run) = false →
       call db id o now = startRun db id run (createRunConnections db run) o now ∧
       (o = TxOutcome.committed →
          runStatus (call db id o now).1 id = some JobRunStatus.QUEUED)) ∧
    (∀ run, findRun db id = some run → runIsStartable run = true →
       hasMissingConnections (createRunConnections db run) = true →
       call db id o now = handleMissingConnections db id (createRunConnections db run) ∧
       runStatus (call db id o now).1 id
         = some JobRunStatus.WAITING_ON_CONNECTIONS) := by
  refine ⟨fun h => call_not_found db id o now h, ?_, ?_, ?_⟩
  · intro run h hp hw
    have hs : runIsStartable run = false := by
      unfold runIsStartable
      cases hstat : run.status with
      | PENDING => exact absurd hstat hp
      | WAITING_ON_CONNECTIONS => exact absurd hstat hw
      | QUEUED => rfl
      | STARTED => rfl
      | SUCCESS => rfl
      | FAILURE => rfl
    exact call_not_startable db id o now run h hs
  · intro run h hs hm
    have hc := call_start db id o now run h hs hm
    refine ⟨hc, fun ho => ?_⟩
    subst ho
    rw [hc]
    unfold startRun runStatus
    rw [findRun_applyRunUpdate, findRun_set_counters, h]
    rfl
  · intro run h hs hm
    have hc := call_missing db id o now run h hs hm
    have hf := handleMissing_frame db id (createRunConnections db run)
    refine ⟨hc, ?_⟩
    rw [hc]
    unfold runStatus
    rw [hf.2.2.2.2, h]
    rfl

theorem C3_activation_gate_witness :
    findRun sampleDB "r1" = some sampleRun ∧
    runIsStartable sampleRun = true ∧
    hasMissingConnections (createRunConnections sampleDB sampleRun) = true ∧
    (call sampleDB "r1" TxOutcome.committed 0
       = handleMissingConnections sampleDB "r1"
           (createRunConnections sampleDB sampleRun) ∧
     runStatus (call sampleDB "r1" TxOutcome.committed 0).1 "r1"
       = some JobRunStatus.WAITING_ON_CONNECTIONS) :=
  ⟨by decide, by decide, by decide,
   (C3_activation_gate sampleDB "r1" TxOutcome.committed 0).2.2.2 sampleRun
     (by decide) (by decide) (by decide)⟩

/-- Claim C4: a committed queue transition first acquires the job's advisory
lock, then upserts the JobCounter row (created at 1 when the job has no
counter, incremented by 1 otherwise), the Run's sequence number equals the
value resulting from that upsert, the stored counter equals it too, and in
particular the first Run ever queued for a job receives sequence number 1. -/
theorem C4_sequencer (db : DB) (id : String) (run : JobRun)
    (rcbk : List (String × RunConnectionResult)) (now : Nat)
    (h : findRun db id = some run) :
    (startRun db id run rcbk TxOutcome.committed now).2.txLog
      = [Event.lockAcquired (jobIdToLockId run.jobId),
         Event.counterUpserted run.jobId (upsertJobCounter db.jobCounters run.jobId).1,
         Event.runUpdated id, Event.dispatchEnqueued id] ∧
    (db.jobCounters.find? (fun p => p.1 == run.jobId) = none →
       (upsertJobCounter db.jobCounters run.jobId).1 = 1) ∧
    (∀ p, db.jobCounters.find? (fun q => q.1 == run.jobId) = some p →
       (upsertJobCounter db.jobCounters run.jobId).1 = p.2 + 1) ∧
    (startRun db id run rcbk TxOutcome.committed now).1.jobCounters.find?
        (fun q => q.1 == run.jobId)
      = some (run.jobId, (upsertJobCounter db.jobCounters run.jobId).1) ∧
    (findRun (startRun db id run rcbk TxOutcome.committed now).1 id).map
        (fun r => r.number)
      = some (some (upsertJobCounter db.jobCounters run.jobId).1) := by
  refine ⟨rfl, fun hn => upsertJobCounter_of_none _ _ hn,
          fun p hp => upsertJobCounter_of_some _ _ p hp, ?_, ?_⟩
  · show (upsertJobCounter db.jobCounters run.jobId).2.find? (fun q => q.1 == run.jobId)
      = some (run.jobId, (upsertJobCounter db.jobCounters run.jobId).1)
    exact upsertJobCounter_find db.jobCounters run.jobId
  · unfold startRun
    rw [findRun_applyRunUpdate, findRun_set_counters, h]
    rfl

theorem C4_sequencer_witness :
    findRun plainDB "r2" = some plainRun ∧
    plainDB.jobCounters.find? (fun p => p.1 == plainRun.jobId) = none ∧
    (upsertJobCounter plainDB.jobCounters plainRun.jobId).1 = 1 ∧
    (findRun (startRun plainDB "r2" plainRun [] TxOutcome.committed 0).1 "r2").map
        (fun r => r.number)
      = some (some (upsertJobCounter plainDB.jobCounters plainRun.jobId).1) :=
  ⟨by decide, by decide,
   (C4_sequencer plainDB "r2" plainRun [] 0 (by decide)).2.1 (by decide),
   (C4_sequencer plainDB "r2" plainRun [] 0 (by decide)).2.2.2.2⟩

/-- Claim C5 is false as stated: re-activating the single Run already
waiting on the same still-unresolved credential does emit a second
provisioning notification, because the guard is "associated-run count
equals 1", not "first-ever association".  Concretely: activating
`sampleRun` parks it on the missing `DEVELOPER` connection and notifies;
activating it again, with the credential still unresolved, notifies the
very same missing connection a second time. -/
theorem C5_renotification_counterexample :
    (call sampleDB "r1" TxOutcome.committed 0).2.notifications
      = ["i1/DEVELOPER/DEVELOPER"] ∧
    (call (call sampleDB "r1" TxOutcome.committed 0).1 "r1"
        TxOutcome.committed 0).2.notifications
      = ["i1/DEVELOPER/DEVELOPER"] := by
  constructor <;> rfl

/-- Claim C5 as amended: after the missing-connection tracker's update, a
provisioning notification is emitted for a MissingConnection if and only if
it is attached to the updated Run and is now associated with exactly one
Run — regardless of whether that association is new, so re-activating the
sole waiting Run re-notifies, while a credential shared with another
waiting Run is never re-notified. -/
theorem C5_notification_iff_count_one (db : DB) (id : String)
    (rcbk : List (String × RunConnectionResult)) (mcId : String) :
    mcId ∈ (handleMissingConnections db id rcbk).2.notifications ↔
      ∃ mc, mc ∈ (handleMissingConnections db id rcbk).1.missingConnections ∧
        mc.id = mcId ∧
        (handleMissingConnections db id rcbk).1.missingConnectionRuns.contains
          (mc.id, id) = true ∧
        runsCount (handleMissingConnections db id rcbk).1 mc.id = 1 := by
  simp only [handleMissingConnections, List.mem_map, List.mem_filter]
  constructor
  · rintro ⟨mc, ⟨⟨hmem, hatt⟩, hcount⟩, hid⟩
    exact ⟨mc, hmem, hid, by simpa using hatt, by simpa using hcount⟩
  · rintro ⟨mc, hmem, hid, hatt, hcount⟩
    exact ⟨mc, ⟨⟨hmem, by simpa using hatt⟩, by simpa using hcount⟩, hid⟩

/-- Claim C6: when at least one requirement resolves to `missing`, the Run
moves to `WAITING_ON_CONNECTIONS` and no queue-transition side effect
occurs — the JobCounter table is untouched, the Run's sequence number and
queued-at timestamp keep their prior values, no binding row is created, no
dispatch is enqueued and the transaction log stays empty. -/
theorem C6_missing_path_frame (db : DB) (id : String) (o : TxOutcome) (now : Nat)
    (run : JobRun) (h1 : findRun db id = some run)
    (h2 : runIsStartable run = true)
    (h3 : hasMissingConnections (createRunConnections db run) = true) :
    runStatus (call db id o now).1 id = some JobRunStatus.WAITING_ON_CONNECTIONS ∧
    (call db id o now).1.jobCounters = db.jobCounters ∧
    (call db id o now).1.runConnections = db.runConnections ∧
    (findRun (call db id o now).1 id).map (fun r => r.number) = some run.number ∧
    (findRun (call db id o now).1 id).map (fun r => r.queuedAt) = some run.queuedAt ∧
    (call db id o now).2.dispatches = [] ∧
    (call db id o now).2.txLog = [] := by
  rw [call_missing db id o now run h1 h2 h3]
  have hf := handleMissing_frame db id (createRunConnections db run)
  refine ⟨?_, hf.1, hf.2.1, ?_, ?_, hf.2.2.1, hf.2.2.2.1⟩
  · unfold runStatus
    rw [hf.2.2.2.2, h1]
    rfl
  · rw [hf.2.2.2.2, h1]
    rfl
  · rw [hf.2.2.2.2, h1]
    rfl

theorem C6_missing_path_frame_witness :
    findRun sampleDB "r1" = some sampleRun ∧
    runIsStartable sampleRun = true ∧
    hasMissingConnections (createRunConnections sampleDB sampleRun) = true ∧
    (call sampleDB "r1" TxOutcome.committed 0).1.jobCounters = sampleDB.jobCounters ∧
    (findRun (call sampleDB "r1" TxOutcome.committed 0).1 "r1").map (fun r => r.number)
      = some sampleRun.number :=
  ⟨by decide, by decide, by decide,
   (C6_missing_path_frame sampleDB "r1" TxOutcome.committed 0 sampleRun (by decide)
      (by decide) (by decide)).2.1,
   (C6_missing_path_frame sampleDB "r1" TxOutcome.committed 0 sampleRun (by decide)
      (by decide) (by decide)).2.2.2.1⟩

/-- Claim C7: calling activate on a Run in `QUEUED` changes nothing — the
store and the effects are exactly as before, and the Run's status is still
`QUEUED` afterwards; a Run never leaves `QUEUED` through this pipeline. -/
theorem C7_queued_noop (db : DB) (id : String) (o : TxOutcome) (now : Nat)
    (run : JobRun) (h1 : findRun db id = some run)
    (h2 : run.status = JobRunStatus.QUEUED) :
    call db id o now = (db, emptyEffects) ∧
    runStatus (call db id o now).1 id = some JobRunStatus.QUEUED := by
  have hs : runIsStartable run = false := by
    unfold runIsStartable
    rw [h2]
    rfl
  have hc := call_not_startable db id o now run h1 hs
  refine ⟨hc, ?_⟩
  rw [hc]
  unfold runStatus
  rw [h1, Option.map_some']
  rw [h2]

theorem C7_queued_noop_witness :
    findRun queuedDB "r3" = some queuedRun ∧
    queuedRun.status = JobRunStatus.QUEUED ∧
    (call queuedDB "r3" TxOutcome.committed 7 = (queuedDB, emptyEffects) ∧
     runStatus (call queuedDB "r3" TxOutcome.committed 7).1 "r3"
       = some JobRunStatus.QUEUED) :=
  ⟨by decide, by decide,
   C7_queued_noop queuedDB "r3" TxOutcome.committed 7 queuedRun (by decide) (by decide)⟩

/-- Claim C8: the job-identity-to-lock-key mapping is a pure, deterministic
function — equal job identities always yield equal lock keys, the result
depends only on the job identity, and (being 8 hex digits of the SHA-256
digest) it fits the 32-bit numeric domain of the lock key. -/
theorem C8_lock_key_deterministic (j1 j2 : String) (h : j1 = j2) :
    jobIdToLockId j1 = jobIdToLockId j2 ∧ jobIdToLockId j1 < 4294967296 := by
  subst h
  refine ⟨rfl, ?_⟩
  have h1 := parseIntHex_lt ((toHex (sha256Bytes (utf8Bytes j1))).take 8)
  have h2 : ((toHex (sha256Bytes (utf8Bytes j1))).take 8).length ≤ 8 := by
    simp [List.length_take]
  have h3 : (16 : Nat) ^ ((toHex (sha256Bytes (utf8Bytes j1))).take 8).length
      ≤ 16 ^ 8 := Nat.pow_le_pow_right (by norm_num) h2
  have h4 : jobIdToLockId j1 < 16 ^ 8 := lt_of_lt_of_le h1 h3
  have h5 : (16 : Nat) ^ 8 = 4294967296 := by norm_num
  rw [h5] at h4
  exact h4

theorem C8_lock_key_deterministic_witness :
    ("job-1" : String) = "job-1" ∧
    (jobIdToLockId "job-1" = jobIdToLockId "job-1" ∧
     jobIdToLockId "job-1" < 4294967296) :=
  ⟨rfl, C8_lock_key_deterministic "job-1" "job-1" rfl⟩

lemma connectOrCreateMissing_found (db : DB) (runId : String) (m : MissingInfo)
    (mc : MissingConnection)
    (hfind : db.missingConnections.find? (fun mc =>
        mc.integrationId == (missingConnectionWhere m).1 &&
        mc.connectionType == (missingConnectionWhere m).2.1 &&
        mc.accountIdentifier == (missingConnectionWhere m).2.2) = some mc) :
    connectOrCreateMissing db runId m
      = { db with missingConnectionRuns :=
            connectPair db.missingConnectionRuns mc.id runId } := by
  unfold connectOrCreateMissing
  rw [hfind]

lemma connectOrCreateMissing_notFound (db : DB) (runId : String) (m : MissingInfo)
    (hfind : db.missingConnections.find? (fun mc =>
        mc.integrationId == (missingConnectionWhere m).1 &&
        mc.connectionType == (missingConnectionWhere m).2.1 &&
        mc.accountIdentifier == (missingConnectionWhere m).2.2) = none) :
    connectOrCreateMissing db runId m
      = { db with
          missingConnections := db.missingConnections ++ [missingConnectionCreate m],
          missingConnectionRuns :=
            connectPair db.missingConnectionRuns (missingConnectionCreate m).id runId } := by
  unfold connectOrCreateMissing
  rw [hfind]

lemma missingConnectionCreate_matches (m : MissingInfo) :
    ((missingConnectionCreate m).integrationId == (missingConnectionWhere m).1 &&
     (missingConnectionCreate m).connectionType == (missingConnectionWhere m).2.1 &&
     (missingConnectionCreate m).accountIdentifier == (missingConnectionWhere m).2.2)
      = true := by
  simp [missingConnectionCreate, missingConnectionWhere]

/-- Claim C9: the missing-connection upsert's lookup key and creation
payload always agree — the `where` triple equals the created record's
`(integrationId, connectionType, accountIdentifier)`, the account
identifier is the Run's external-account id when present and the literal
`"DEVELOPER"` otherwise, and repeating the `connectOrCreate` for the same
missing credential is idempotent: it matches the previously created record
instead of creating a duplicate. -/
theorem C9_missing_connection_upsert_key (m : MissingInfo) (db : DB)
    (runId : String) :
    missingConnectionWhere m
      = ((missingConnectionCreate m).integrationId,
         (missingConnectionCreate m).connectionType,
         (missingConnectionCreate m).accountIdentifier) ∧
    (missingConnectionCreate m).accountIdentifier
      = (match m.externalAccountId with
         | some e => e
         | none => "DEVELOPER") ∧
    connectOrCreateMissing (connectOrCreateMissing db runId m) runId m
      = connectOrCreateMissing db runId m := by
  refine ⟨rfl, ?_, ?_⟩
  · cases h : m.externalAccountId <;> simp [missingConnectionCreate, h]
  · cases hfind : db.missingConnections.find? (fun mc =>
        mc.integrationId == (missingConnectionWhere m).1 &&
        mc.connectionType == (missingConnectionWhere m).2.1 &&
        mc.accountIdentifier == (missingConnectionWhere m).2.2) with
    | some mc =>
        rw [connectOrCreateMissing_found db runId m mc hfind]
        have key : ∀ d : DB, d.missingConnections = db.missingConnections →
            d.missingConnectionRuns = connectPair db.missingConnectionRuns mc.id runId →
            connectOrCreateMissing d runId m = d := by
          intro d hmcs hruns
          rw [connectOrCreateMissing_found d runId m mc (by rw [hmcs]; exact hfind),
              hruns, connectPair_idem, ← hruns]
        exact key _ rfl rfl
    | none =>
        rw [connectOrCreateMissing_notFound db runId m hfind]
        have hpred : (fun mc : MissingConnection =>
            mc.integrationId == (missingConnectionWhere m).1 &&
            mc.connectionType == (missingConnectionWhere m).2.1 &&
            mc.accountIdentifier == (missingConnectionWhere m).2.2)
            (missingConnectionCreate m) = true := missingConnectionCreate_matches m
        have key : ∀ d : DB,
            d.missingConnections = db.missingConnections ++ [missingConnectionCreate m] →
            d.missingConnectionRuns
              = connectPair db.missingConnectionRuns (missingConnectionCreate m).id runId →
            connectOrCreateMissing d runId m = d := by
          intro d hmcs hruns
          have hfind2 : d.missingConnections.find? (fun mc =>
              mc.integrationId == (missingConnectionWhere m).1 &&
              mc.connectionType == (missingConnectionWhere m).2.1 &&
              mc.accountIdentifier == (missingConnectionWhere m).2.2)
              = some (missingConnectionCreate m) := by
            rw [hmcs, find?_append_of_none _ _ _ hfind]
            simp only [List.find?, missingConnectionCreate_matches m]
          rw [connectOrCreateMissing_found d runId m (missingConnectionCreate m) hfind2,
              hruns, connectPair_idem, ← hruns]
        exact key _ rfl rfl

end StartRun

namespace ShopifyIntegration

/-- Claim C10: the Shopify integration's `authSource` is `"LOCAL"` exactly
when a truthy `apiKey` option was supplied at construction and `"HOSTED"`
otherwise; constructing with an `apiKey` key explicitly present but
undefined throws, so a successfully constructed instance whose options
contain an `apiKey` key always has `authSource` `"LOCAL"`. -/
theorem C10_shopify_auth_source (opts : ShopifyIntegrationOptions) :
    (∀ s, construct opts = Except.ok s →
       (s.authSource = "LOCAL" ↔ apiKeyTruthy opts.apiKey = true) ∧
       (apiKeyTruthy opts.apiKey = false → s.authSource = "HOSTED")) ∧
    (opts.apiKey = ApiKeyOption.presentUndefined →
       ∃ e, construct opts = Except.error e) ∧
    (∀ s, construct opts = Except.ok s → apiKeyPresent opts.apiKey = true →
       s.authSource = "LOCAL") := by
  refine ⟨?_, ?_, ?_⟩
  · intro s hs
    have hopts : s = ⟨opts⟩ := by
      unfold construct at hs
      by_cases hc : (apiKeyPresent opts.apiKey && !apiKeyTruthy opts.apiKey) = true
      · rw [if_pos hc] at hs
        exact absurd hs (by simp)
      · rw [if_neg hc] at hs
        simpa using hs.symm
    subst hopts
    cases ht : apiKeyTruthy opts.apiKey with
    | true => simp [Shopify.authSource, ht]
    | false =>
        refine ⟨⟨fun hcon => ?_, fun hcon => absurd hcon (by simp)⟩, fun _ => ?_⟩
        · have hh : ({ options := opts } : Shopify).authSource = "HOSTED" := by
            simp [Shopify.authSource, ht]
          rw [hh] at hcon
          exact absurd hcon (by decide)
        · simp [Shopify.authSource, ht]
  · intro hu
    refine ⟨"Can't create Shopify integration (" ++ opts.id ++ ") as apiKey was undefined", ?_⟩
    unfold construct
    rw [if_pos (by rw [hu]; rfl)]
  · intro s hs hp
    have hts : apiKeyTruthy opts.apiKey = true := by
      by_contra hcon
      have hf : apiKeyTruthy opts.apiKey = false := by
        cases hx : apiKeyTruthy opts.apiKey
        · rfl
        · exact absurd hx hcon
      unfold construct at hs
      rw [if_pos (by rw [hp, hf]; rfl)] at hs
      exact absurd hs (by simp)
    have hopts : s = ⟨opts⟩ := by
      unfold construct at hs
      by_cases hc : (apiKeyPresent opts.apiKey && !apiKeyTruthy opts.apiKey) = true
      · rw [if_pos hc] at hs
        exact absurd hs (by simp)
      · rw [if_neg hc] at hs
        simpa using hs.symm
    subst hopts
    unfold Shopify.authSource
    rw [if_pos (by simpa using hts)]

def shopOpts : ShopifyIntegrationOptions :=
  ⟨"shop-1", ApiKeyOption.present "key-123", "secret", "token", "example.myshopify.com"⟩

def shopInstance : Shopify := ⟨shopOpts⟩

theorem C10_shopify_auth_source_witness :
    construct shopOpts = Except.ok shopInstance ∧
    apiKeyPresent shopOpts.apiKey = true ∧
    shopInstance.authSource = "LOCAL" :=
  ⟨rfl, rfl, (C10_shopify_auth_source shopOpts).2.2 shopInstance rfl rfl⟩

end ShopifyIntegration
